import Mathlib

/-!
# Verification of the chaiNNer input descriptor / value-enforcement layer

Shallow embedding of `src/backend/nodes/properties/inputs/generic_inputs.py`.

Python numeric values (ints and floats) are modelled as rationals `ℚ`;
`int(x)` is truncation toward zero (`pyInt`), `float(x)` is the identity on
the rational carrier, and Python's `%` on integers (sign of the divisor,
here always the positive literal 2) coincides with Lean's `Int.emod`.
A value that may be absent (`None`) is `Option ℚ`; an `enforce` method whose
`assert value is not None` fails is modelled as returning
`Except.error PyErr.invalidValue` (the spec's single error kind for this
situation), and an arithmetic coercion applied to `None`
(e.g. `float(None)`) as `Except.error PyErr.typeError`.

Serialized descriptor records (Python dicts built by `toDict` or by the
factory functions) are modelled as ordered association lists
`List (String × JsonVal)` in the literal key order of the source.
-/

/-- Errors an `enforce` call can raise. `invalidValue` models the failing
`assert value is not None` (the spec's `InvalidValue`); `typeError` models a
Python `TypeError` from coercing `None` arithmetically. -/
inductive PyErr where
  | invalidValue : PyErr
  | typeError : PyErr
deriving DecidableEq, Repr

instance {ε α : Type} [DecidableEq ε] [DecidableEq α] :
    DecidableEq (Except ε α) := fun x y =>
  match x, y with
  | Except.ok a, Except.ok b =>
    match decEq a b with
    | isTrue h => isTrue (by rw [h])
    | isFalse h => isFalse (by intro hc; cases hc; exact h rfl)
  | Except.ok _, Except.error _ => isFalse (by intro hc; cases hc)
  | Except.error _, Except.ok _ => isFalse (by intro hc; cases hc)
  | Except.error e, Except.error f =>
    match decEq e f with
    | isTrue h => isTrue (by rw [h])
    | isFalse h => isFalse (by intro hc; cases hc; exact h rfl)

/-- Pointwise order on `enforce` results: both calls must succeed and the
first result must be at most the second; any error makes it false. -/
def exceptLE : Except PyErr ℚ → Except PyErr ℚ → Prop
  | Except.ok a, Except.ok b => a ≤ b
  | _, _ => False

/-- A JSON-like value as stored in a serialized descriptor record. -/
inductive JsonVal where
  | str : String → JsonVal
  | num : ℚ → JsonVal
  | bool : Bool → JsonVal
  | jnull : JsonVal
  | list : List JsonVal → JsonVal

/-- Python `int(x)` on a numeric value: truncation toward zero. -/
def pyInt (q : ℚ) : ℤ := if q < 0 then ⌈q⌉ else ⌊q⌋

/-- Serialize an optional numeric field (`None` becomes JSON null). -/
def jsonOfOpt : Option ℚ → JsonVal
  | none => JsonVal.jnull
  | some q => JsonVal.num q

/-- The state of a `NumberInput` object after `__init__`
(shared by all numeric variants, which only override `enforce`). -/
structure NumberInput where
  input_type : String
  label : String
  default : ℚ
  minimum : Option ℚ
  maximum : Option ℚ
  step : Option ℚ
  optional : Bool
deriving DecidableEq, Repr

/-- `NumberInput.__init__(label, default=0.0, minimum=0, maximum=None, step=1,
optional=False, number_type="any")`; all arguments passed explicitly. -/
def NumberInput.make (label : String) (default : ℚ) (minimum : Option ℚ)
    (maximum : Option ℚ) (step : Option ℚ) (optional : Bool)
    (number_type : String) : NumberInput :=
  { input_type := "number::" ++ number_type
    label := label
    default := default
    minimum := minimum
    maximum := maximum
    step := step
    optional := optional }

/-- `NumberInput.toDict`: the dict literal, keys in source order. -/
def NumberInput.toDict (d : NumberInput) : List (String × JsonVal) :=
  [("type", JsonVal.str d.input_type),
   ("label", JsonVal.str d.label),
   ("min", jsonOfOpt d.minimum),
   ("max", jsonOfOpt d.maximum),
   ("def", JsonVal.num d.default),
   ("step", jsonOfOpt d.step),
   ("hasHandle", JsonVal.bool true),
   ("optional", JsonVal.bool d.optional)]

/-- `NumberInput.enforce`: assert value present, then
`max(float(self.minimum), float(value))`. -/
def NumberInput.enforce (d : NumberInput) (value : Option ℚ) : Except PyErr ℚ :=
  match value with
  | none => Except.error PyErr.invalidValue
  | some v =>
    match d.minimum with
    | none => Except.error PyErr.typeError
    | some m => Except.ok (max m v)

/-- `IntegerInput.__init__(label)`: `super().__init__(label, default=0,
minimum=0, maximum=None, step=None)`. -/
def IntegerInput.make (label : String) : NumberInput :=
  NumberInput.make label 0 (some 0) none none false "any"

/-- `IntegerInput.enforce`: `max(int(self.minimum), int(value))`. -/
def IntegerInput.enforce (d : NumberInput) (value : Option ℚ) : Except PyErr ℚ :=
  match value with
  | none => Except.error PyErr.invalidValue
  | some v =>
    match d.minimum with
    | none => Except.error PyErr.typeError
    | some m => Except.ok (((max (pyInt m) (pyInt v) : ℤ) : ℚ))

/-- `BoundedNumberInput.__init__(label, minimum=0.0, maximum=1.0, default=0.5,
step=0.25)`; all arguments passed explicitly. -/
def BoundedNumberInput.make (label : String) (minimum maximum default step : ℚ) :
    NumberInput :=
  NumberInput.make label default (some minimum) (some maximum) (some step)
    false "any"

/-- `BoundedNumberInput.enforce`:
`min(max(float(self.minimum), float(value)), float(self.maximum))`. -/
def BoundedNumberInput.enforce (d : NumberInput) (value : Option ℚ) :
    Except PyErr ℚ :=
  match value with
  | none => Except.error PyErr.invalidValue
  | some v =>
    match d.minimum, d.maximum with
    | some m, some M => Except.ok (min (max m v) M)
    | _, _ => Except.error PyErr.typeError

/-- `OddIntegerInput.__init__(label, default=1, minimum=1)`:
`super().__init__(label, default=default, minimum=minimum, maximum=None,
step=2)`; `default` and `minimum` are Python ints. -/
def OddIntegerInput.make (label : String) (default minimum : ℤ) : NumberInput :=
  NumberInput.make label (default : ℚ) (some (minimum : ℚ)) none (some 2)
    false "any"

/-- `OddIntegerInput.enforce`:
`odd = int(value) - (int(value) % 2); capped = max(int(self.minimum), odd)`. -/
def OddIntegerInput.enforce (d : NumberInput) (value : Option ℚ) :
    Except PyErr ℚ :=
  match value with
  | none => Except.error PyErr.invalidValue
  | some v =>
    match d.minimum with
    | none => Except.error PyErr.typeError
    | some m =>
      Except.ok (((max (pyInt m) (pyInt v - pyInt v % 2) : ℤ) : ℚ))

/-- `BoundedIntegerInput.__init__(label, minimum=0, maximum=100, default=50,
optional=False)`: forwards to the base constructor, keeping the base
`step=1` default. -/
def BoundedIntegerInput.make (label : String) (minimum maximum default : ℤ)
    (optional : Bool) : NumberInput :=
  NumberInput.make label (default : ℚ) (some (minimum : ℚ))
    (some (maximum : ℚ)) (some 1) optional "any"

/-- `BoundedIntegerInput.enforce`:
`min(max(int(self.minimum), int(value)), int(self.maximum))`. -/
def BoundedIntegerInput.enforce (d : NumberInput) (value : Option ℚ) :
    Except PyErr ℚ :=
  match value with
  | none => Except.error PyErr.invalidValue
  | some v =>
    match d.minimum, d.maximum with
    | some m, some M =>
        Except.ok (((min (max (pyInt m) (pyInt v)) (pyInt M) : ℤ) : ℚ))
    | _, _ => Except.error PyErr.typeError

/-- `BoundlessIntegerInput.__init__(label)`: `super().__init__(label,
default=0, minimum=None, maximum=None)`, keeping the base `step=1` default. -/
def BoundlessIntegerInput.make (label : String) : NumberInput :=
  NumberInput.make label 0 none none (some 1) false "any"

/-- `BoundlessIntegerInput.enforce`: `int(value)`, no clamping. -/
def BoundlessIntegerInput.enforce (_d : NumberInput) (value : Option ℚ) :
    Except PyErr ℚ :=
  match value with
  | none => Except.error PyErr.invalidValue
  | some v => Except.ok ((pyInt v : ℚ))

/-- `SliderInput.__init__(label, min_val, max_val, default, optional=False)`:
forwards with `step=1` and `number_type="slider"`. -/
def SliderInput.make (label : String) (min_val max_val default : ℤ)
    (optional : Bool) : NumberInput :=
  NumberInput.make label (default : ℚ) (some (min_val : ℚ))
    (some (max_val : ℚ)) (some 1) optional "slider"

/-- `SliderInput.enforce`:
`min(max(int(self.minimum), int(value)), int(self.maximum))`. -/
def SliderInput.enforce (d : NumberInput) (value : Option ℚ) :
    Except PyErr ℚ :=
  match value with
  | none => Except.error PyErr.invalidValue
  | some v =>
    match d.minimum, d.maximum with
    | some m, some M =>
        Except.ok (((min (max (pyInt m) (pyInt v)) (pyInt M) : ℤ) : ℚ))
    | _, _ => Except.error PyErr.typeError

/-- `DropDownInput(input_type, label, options, optional=False)`:
the returned dict, keys in source order. -/
def DropDownInput (input_type label : String) (options : List JsonVal)
    (optional : Bool) : List (String × JsonVal) :=
  [("type", JsonVal.str ("dropdown::" ++ input_type)),
   ("label", JsonVal.str label),
   ("options", JsonVal.list options),
   ("optional", JsonVal.bool optional)]

/-- One dropdown option dict `{"option": ..., "value": ...}`. -/
def dropOption (display : String) (value : JsonVal) : JsonVal :=
  JsonVal.list [JsonVal.str display, value]

/-- `MathOpsDropdown()`. -/
def MathOpsDropdown : List (String × JsonVal) :=
  DropDownInput "math-operations" "Math Operation"
    [dropOption "Add (+)" (JsonVal.str "add"),
     dropOption "Subtract (-)" (JsonVal.str "sub"),
     dropOption "Multiply (×)" (JsonVal.str "mul"),
     dropOption "Divide (÷)" (JsonVal.str "div"),
     dropOption "Exponent/Power (^)" (JsonVal.str "pow")] false

/-- `StackOrientationDropdown()` (built with `optional=True`). -/
def StackOrientationDropdown : List (String × JsonVal) :=
  DropDownInput "generic" "Orientation"
    [dropOption "Horizontal" (JsonVal.str "horizontal"),
     dropOption "Vertical" (JsonVal.str "vertical")] true

/-- `AlphaFillMethodInput()` (option values are the ints 1 and 2). -/
def AlphaFillMethodInput : List (String × JsonVal) :=
  DropDownInput "generic" "Fill method"
    [dropOption "Extend texture" (JsonVal.num 1),
     dropOption "Extend color" (JsonVal.num 2)] false

/-- `VideoTypeDropdown()`. -/
def VideoTypeDropdown : List (String × JsonVal) :=
  DropDownInput "generic" "Video Type"
    [dropOption "MP4" (JsonVal.str "mp4"),
     dropOption "AVI" (JsonVal.str "avi"),
     dropOption "None" (JsonVal.str "none")] false

/-! ## Basic facts about the embedding of Python arithmetic -/

theorem pyInt_intCast (n : ℤ) : pyInt (n : ℚ) = n := by
  unfold pyInt
  split
  · exact Int.ceil_intCast n
  · exact Int.floor_intCast n

theorem pyInt_zero : pyInt 0 = 0 := by
  unfold pyInt
  rw [if_neg (lt_irrefl 0)]
  exact Int.floor_zero

theorem pyInt_mono {x y : ℚ} (h : x ≤ y) : pyInt x ≤ pyInt y := by
  unfold pyInt
  by_cases hx : x < 0
  · by_cases hy : y < 0
    · rw [if_pos hx, if_pos hy]
      exact Int.ceil_mono h
    · rw [if_pos hx, if_neg hy]
      have h1 : ⌈x⌉ ≤ (0 : ℤ) := Int.ceil_le.mpr (by exact_mod_cast hx.le)
      have h2 : (0 : ℤ) ≤ ⌊y⌋ := Int.floor_nonneg.mpr (not_lt.mp hy)
      omega
  · by_cases hy : y < 0
    · exact absurd (h.trans_lt hy) hx
    · rw [if_neg hx, if_neg hy]
      exact Int.floor_mono h

/-- Truncation toward zero and rounding down agree under a `max` with zero. -/
theorem max_zero_pyInt_eq (v : ℚ) : max 0 (pyInt v) = max 0 ⌊v⌋ := by
  unfold pyInt
  by_cases hv : v < 0
  · rw [if_pos hv]
    have h1 : ⌈v⌉ ≤ (0 : ℤ) := Int.ceil_le.mpr (by exact_mod_cast hv.le)
    have h2 : ⌊v⌋ ≤ (0 : ℤ) := Int.floor_nonpos hv.le
    omega
  · rw [if_neg hv]

/-- `min (max m _) M` clamping is idempotent (no `m ≤ M` assumption needed). -/
theorem clamp_idem {α : Type} [LinearOrder α] (m M x : α) :
    min (max m (min (max m x) M)) M = min (max m x) M := by
  rcases le_total (max m x) M with h | h
  · rw [min_eq_left h, max_eq_right (le_max_left m x), min_eq_left h]
  · rw [min_eq_right h]
    rcases le_total m M with h2 | h2
    · rw [max_eq_right h2, min_self]
    · rw [max_eq_left h2, min_eq_right h2]

/-- The even-floor-then-bound rule of `OddIntegerInput.enforce` is idempotent. -/
theorem odd_core_idem (m t : ℤ) :
    max m (max m (t - t % 2) - max m (t - t % 2) % 2) = max m (t - t % 2) := by
  rcases le_total m (t - t % 2) with h | h
  · rw [max_eq_right h]
    have h2 : (t - t % 2) % 2 = 0 := by omega
    rw [h2, sub_zero, max_eq_right h]
  · rw [max_eq_left h]
    have h2 : m - m % 2 ≤ m := by omega
    rw [max_eq_left h2]

/-! ## Reduction of each variant's `enforce` on a present value -/

theorem numberInput_enforce_some (label : String) (df m : ℚ) (mx st : Option ℚ)
    (opt : Bool) (nt : String) (v : ℚ) :
    NumberInput.enforce (NumberInput.make label df (some m) mx st opt nt)
      (some v) = Except.ok (max m v) := rfl

theorem integerInput_enforce_some (label : String) (v : ℚ) :
    IntegerInput.enforce (IntegerInput.make label) (some v)
      = Except.ok ((max 0 (pyInt v) : ℤ) : ℚ) := by
  show Except.ok ((max (pyInt 0) (pyInt v) : ℤ) : ℚ) = _
  rw [pyInt_zero]

theorem boundedNumberInput_enforce_some (label : String) (mn mx df st v : ℚ) :
    BoundedNumberInput.enforce (BoundedNumberInput.make label mn mx df st)
      (some v) = Except.ok (min (max mn v) mx) := rfl

theorem oddIntegerInput_enforce_some (label : String) (df mn : ℤ) (v : ℚ) :
    OddIntegerInput.enforce (OddIntegerInput.make label df mn) (some v)
      = Except.ok ((max mn (pyInt v - pyInt v % 2) : ℤ) : ℚ) := by
  show Except.ok ((max (pyInt (mn : ℚ)) (pyInt v - pyInt v % 2) : ℤ) : ℚ) = _
  rw [pyInt_intCast]

theorem boundedIntegerInput_enforce_some (label : String) (mn mx df : ℤ)
    (opt : Bool) (v : ℚ) :
    BoundedIntegerInput.enforce (BoundedIntegerInput.make label mn mx df opt)
      (some v) = Except.ok ((min (max mn (pyInt v)) mx : ℤ) : ℚ) := by
  show Except.ok ((min (max (pyInt (mn : ℚ)) (pyInt v)) (pyInt (mx : ℚ)) : ℤ)
    : ℚ) = _
  rw [pyInt_intCast, pyInt_intCast]

theorem boundlessIntegerInput_enforce_some (label : String) (v : ℚ) :
    BoundlessIntegerInput.enforce (BoundlessIntegerInput.make label) (some v)
      = Except.ok ((pyInt v : ℤ) : ℚ) := rfl

theorem sliderInput_enforce_some (label : String) (mn mx df : ℤ)
    (opt : Bool) (v : ℚ) :
    SliderInput.enforce (SliderInput.make label mn mx df opt) (some v)
      = Except.ok ((min (max mn (pyInt v)) mx : ℤ) : ℚ) := by
  show Except.ok ((min (max (pyInt (mn : ℚ)) (pyInt v)) (pyInt (mx : ℚ)) : ℤ)
    : ℚ) = _
  rw [pyInt_intCast, pyInt_intCast]

/-! ## Claims -/

/-- C1: evaluation of `OddIntegerInput.enforce` (default `minimum=1`) at the
claim's concrete inputs. The code computes `int(value) - int(value) % 2`,
which is the *even* floor, so `enforce(4) = 4` and `enforce(5) = 4` — not the
odd values 3 and 5 the claim (and the class's own "odd integer" docstring,
`step=2`, odd default and odd minimum) state. -/
theorem c1_oddIntegerInput_enforce_returns_even_floor :
    OddIntegerInput.enforce (OddIntegerInput.make "n" 1 1) (some 4)
        = Except.ok 4 ∧
    OddIntegerInput.enforce (OddIntegerInput.make "n" 1 1) (some 5)
        = Except.ok 4 ∧
    OddIntegerInput.enforce (OddIntegerInput.make "n" 1 1) (some 1)
        = Except.ok 1 ∧
    OddIntegerInput.enforce (OddIntegerInput.make "n" 1 1) (some (-1))
        = Except.ok 1 ∧
    OddIntegerInput.enforce (OddIntegerInput.make "n" 1 1) (some 4)
        ≠ Except.ok 3 ∧
    OddIntegerInput.enforce (OddIntegerInput.make "n" 1 1) (some 5)
        ≠ Except.ok 5 := by
  refine ⟨by decide, by decide, by decide, ?_, by decide, by decide⟩
  rw [oddIntegerInput_enforce_some]
  have h : pyInt (-1 : ℚ) = -1 := by
    unfold pyInt
    norm_num [Int.ceil_eq_iff]
  rw [h]
  decide

/-- C2 (amended): the base `NumberInput.enforce` clamps only below; it
returns `max(minimum, value)` and ignores the `maximum` field entirely,
whether or not `maximum` is set. -/
theorem c2_numberInput_enforce_clamps_only_below (label : String) (df m : ℚ)
    (mx st : Option ℚ) (opt : Bool) (nt : String) (v : ℚ) :
    NumberInput.enforce (NumberInput.make label df (some m) mx st opt nt)
      (some v) = Except.ok (max m v) := rfl

/-- C2 counterexample: a `NumberInput` with `minimum=0, maximum=10` returns
20 for the supplied value 20, which exceeds the configured maximum. -/
theorem c2_counterexample_maximum_not_enforced :
    NumberInput.enforce
        (NumberInput.make "n" 0 (some 0) (some 10) (some 1) false "any")
        (some 20) = Except.ok 20 ∧ ¬ ((20 : ℚ) ≤ 10) := by
  constructor
  · decide
  · norm_num

/-- C4: `IntegerInput.enforce(value)` equals `max(minimum, floor_to_int(value))`
with the constructor-fixed `minimum = 0` (truncation toward zero and floor
agree under `max` with 0), and the result is a nonnegative integer. -/
theorem c4_integerInput_enforce_eq_max_zero_floor (label : String) (v : ℚ) :
    IntegerInput.enforce (IntegerInput.make label) (some v)
        = Except.ok ((max 0 ⌊v⌋ : ℤ) : ℚ) ∧
    (0 : ℚ) ≤ ((max 0 ⌊v⌋ : ℤ) : ℚ) := by
  constructor
  · rw [integerInput_enforce_some, max_zero_pyInt_eq]
  · exact_mod_cast le_max_left 0 ⌊v⌋

/-- C5: for every numeric variant, `enforce` on an absent value (`None`)
returns the `InvalidValue` error and no numeric result. -/
theorem c5_enforce_none_raises_invalidValue (d : NumberInput) :
    NumberInput.enforce d none = Except.error PyErr.invalidValue ∧
    IntegerInput.enforce d none = Except.error PyErr.invalidValue ∧
    BoundedNumberInput.enforce d none = Except.error PyErr.invalidValue ∧
    OddIntegerInput.enforce d none = Except.error PyErr.invalidValue ∧
    BoundedIntegerInput.enforce d none = Except.error PyErr.invalidValue ∧
    BoundlessIntegerInput.enforce d none = Except.error PyErr.invalidValue ∧
    SliderInput.enforce d none = Except.error PyErr.invalidValue :=
  ⟨rfl, rfl, rfl, rfl, rfl, rfl, rfl⟩

/-- C7: `BoundlessIntegerInput.enforce` converts by truncation toward zero
(`pyInt`) with no clamping; concretely `enforce(3.9) = 3` and
`enforce(-3.9) = -3`. -/
theorem c7_boundlessIntegerInput_truncates_toward_zero (label : String)
    (v : ℚ) :
    BoundlessIntegerInput.enforce (BoundlessIntegerInput.make label) (some v)
        = Except.ok ((pyInt v : ℤ) : ℚ) ∧
    BoundlessIntegerInput.enforce (BoundlessIntegerInput.make label)
        (some (39 / 10)) = Except.ok 3 ∧
    BoundlessIntegerInput.enforce (BoundlessIntegerInput.make label)
        (some (-(39 / 10))) = Except.ok (-3) := by
  refine ⟨rfl, ?_, ?_⟩
  · rw [boundlessIntegerInput_enforce_some]
    have h : pyInt ((39 : ℚ) / 10) = 3 := by
      unfold pyInt
      norm_num [Int.floor_eq_iff]
    rw [h]
    norm_num
  · rw [boundlessIntegerInput_enforce_some]
    have h : pyInt (-((39 : ℚ) / 10)) = -3 := by
      unfold pyInt
      norm_num [Int.ceil_eq_iff]
    rw [h]
    norm_num

/-- Rounding an integer down to the nearest smaller-or-equal even parity
value (`t - t % 2`) is monotone. -/
theorem evenFloor_mono {t u : ℤ} (h : t ≤ u) : t - t % 2 ≤ u - u % 2 := by
  omega

/-- C3: for every bounded variant with `minimum ≤ maximum`, `enforce` lands in
`[minimum, maximum]`; concretely `BoundedIntegerInput(0,100)` maps 150 to 100,
-5 to 0, 42 to 42, and `BoundedNumberInput(0.0,1.0)` maps 1.5 to 1.0,
-0.2 to 0.0, 0.5 to 0.5. -/
theorem c3_bounded_variants_enforce_in_range (label : String)
    (mB MB dB sB : ℚ) (mI MI dI : ℤ) (optI : Bool) (mS MS dS : ℤ)
    (optS : Bool) (v : ℚ) (hB : mB ≤ MB) (hI : mI ≤ MI) (hS : mS ≤ MS) :
    (∃ r : ℚ, BoundedNumberInput.enforce
        (BoundedNumberInput.make label mB MB dB sB) (some v) = Except.ok r ∧
        mB ≤ r ∧ r ≤ MB) ∧
    (∃ r : ℚ, BoundedIntegerInput.enforce
        (BoundedIntegerInput.make label mI MI dI optI) (some v) = Except.ok r ∧
        (mI : ℚ) ≤ r ∧ r ≤ (MI : ℚ)) ∧
    (∃ r : ℚ, SliderInput.enforce
        (SliderInput.make label mS MS dS optS) (some v) = Except.ok r ∧
        (mS : ℚ) ≤ r ∧ r ≤ (MS : ℚ)) ∧
    BoundedIntegerInput.enforce (BoundedIntegerInput.make "n" 0 100 50 false)
        (some 150) = Except.ok 100 ∧
    BoundedIntegerInput.enforce (BoundedIntegerInput.make "n" 0 100 50 false)
        (some (-5)) = Except.ok 0 ∧
    BoundedIntegerInput.enforce (BoundedIntegerInput.make "n" 0 100 50 false)
        (some 42) = Except.ok 42 ∧
    BoundedNumberInput.enforce (BoundedNumberInput.make "n" 0 1 (1/2) (1/4))
        (some (3/2)) = Except.ok 1 ∧
    BoundedNumberInput.enforce (BoundedNumberInput.make "n" 0 1 (1/2) (1/4))
        (some (-(1/5))) = Except.ok 0 ∧
    BoundedNumberInput.enforce (BoundedNumberInput.make "n" 0 1 (1/2) (1/4))
        (some (1/2)) = Except.ok (1/2) := by
  refine ⟨?_, ?_, ?_, ?_, ?_, ?_, ?_, ?_, ?_⟩
  · exact ⟨min (max mB v) MB,
      boundedNumberInput_enforce_some label mB MB dB sB v,
      le_min (le_max_left mB v) hB, min_le_right _ _⟩
  · refine ⟨((min (max mI (pyInt v)) MI : ℤ) : ℚ),
      boundedIntegerInput_enforce_some label mI MI dI optI v, ?_, ?_⟩
    · exact_mod_cast le_min (le_max_left mI (pyInt v)) hI
    · exact_mod_cast min_le_right (max mI (pyInt v)) MI
  · refine ⟨((min (max mS (pyInt v)) MS : ℤ) : ℚ),
      sliderInput_enforce_some label mS MS dS optS v, ?_, ?_⟩
    · exact_mod_cast le_min (le_max_left mS (pyInt v)) hS
    · exact_mod_cast min_le_right (max mS (pyInt v)) MS
  · rw [boundedIntegerInput_enforce_some]
    have h : pyInt (150 : ℚ) = 150 := by decide
    rw [h]
    decide
  · rw [boundedIntegerInput_enforce_some]
    have h : pyInt (-5 : ℚ) = -5 := by decide
    rw [h]
    decide
  · rw [boundedIntegerInput_enforce_some]
    have h : pyInt (42 : ℚ) = 42 := by decide
    rw [h]
    decide
  · rw [boundedNumberInput_enforce_some,
      max_eq_right (by norm_num : (0 : ℚ) ≤ 3/2),
      min_eq_right (by norm_num : (1 : ℚ) ≤ 3/2)]
  · rw [boundedNumberInput_enforce_some,
      max_eq_left (by norm_num : (-(1/5) : ℚ) ≤ 0),
      min_eq_left (by norm_num : (0 : ℚ) ≤ 1)]
  · rw [boundedNumberInput_enforce_some,
      max_eq_right (by norm_num : (0 : ℚ) ≤ 1/2),
      min_eq_left (by norm_num : ((1 : ℚ)/2) ≤ 1)]

/-- C3 witness: the bounded-float component at concrete bounds `[0, 1]` and
value `3/2`. -/
theorem c3_bounded_variants_enforce_in_range_witness :
    ∃ r : ℚ, BoundedNumberInput.enforce
        (BoundedNumberInput.make "n" 0 1 (1/2) (1/4)) (some (3/2))
        = Except.ok r ∧ (0 : ℚ) ≤ r ∧ r ≤ 1 :=
  (c3_bounded_variants_enforce_in_range "n" 0 1 (1/2) (1/4) 0 100 50 false
    0 255 128 false (3/2) (by norm_num) (by decide) (by decide)).1

/-- C6: for every numeric variant, `enforce` is idempotent — feeding the
result of `enforce` back into `enforce` (via `Except.bind`) returns the same
result. Proved without needing the `minimum ≤ maximum` assumption. -/
theorem c6_enforce_idempotent (label nt : String) (df mN : ℚ)
    (mx st : Option ℚ) (opt : Bool) (mB MB dB sB : ℚ) (dO mO : ℤ)
    (mI MI dI : ℤ) (optI : Bool) (mS MS dS : ℤ) (optS : Bool) (x : ℚ) :
    (Except.bind (NumberInput.enforce
        (NumberInput.make label df (some mN) mx st opt nt) (some x))
      (fun y => NumberInput.enforce
        (NumberInput.make label df (some mN) mx st opt nt) (some y)))
      = NumberInput.enforce
        (NumberInput.make label df (some mN) mx st opt nt) (some x) ∧
    (Except.bind (IntegerInput.enforce (IntegerInput.make label) (some x))
      (fun y => IntegerInput.enforce (IntegerInput.make label) (some y)))
      = IntegerInput.enforce (IntegerInput.make label) (some x) ∧
    (Except.bind (BoundedNumberInput.enforce
        (BoundedNumberInput.make label mB MB dB sB) (some x))
      (fun y => BoundedNumberInput.enforce
        (BoundedNumberInput.make label mB MB dB sB) (some y)))
      = BoundedNumberInput.enforce
        (BoundedNumberInput.make label mB MB dB sB) (some x) ∧
    (Except.bind (OddIntegerInput.enforce
        (OddIntegerInput.make label dO mO) (some x))
      (fun y => OddIntegerInput.enforce
        (OddIntegerInput.make label dO mO) (some y)))
      = OddIntegerInput.enforce (OddIntegerInput.make label dO mO) (some x) ∧
    (Except.bind (BoundedIntegerInput.enforce
        (BoundedIntegerInput.make label mI MI dI optI) (some x))
      (fun y => BoundedIntegerInput.enforce
        (BoundedIntegerInput.make label mI MI dI optI) (some y)))
      = BoundedIntegerInput.enforce
        (BoundedIntegerInput.make label mI MI dI optI) (some x) ∧
    (Except.bind (BoundlessIntegerInput.enforce
        (BoundlessIntegerInput.make label) (some x))
      (fun y => BoundlessIntegerInput.enforce
        (BoundlessIntegerInput.make label) (some y)))
      = BoundlessIntegerInput.enforce (BoundlessIntegerInput.make label)
        (some x) ∧
    (Except.bind (SliderInput.enforce
        (SliderInput.make label mS MS dS optS) (some x))
      (fun y => SliderInput.enforce
        (SliderInput.make label mS MS dS optS) (some y)))
      = SliderInput.enforce (SliderInput.make label mS MS dS optS) (some x)
    := by
  refine ⟨?_, ?_, ?_, ?_, ?_, ?_, ?_⟩
  · rw [numberInput_enforce_some]
    show NumberInput.enforce
        (NumberInput.make label df (some mN) mx st opt nt) (some (max mN x))
      = Except.ok (max mN x)
    rw [numberInput_enforce_some, max_eq_right (le_max_left mN x)]
  · rw [integerInput_enforce_some]
    show IntegerInput.enforce (IntegerInput.make label)
        (some ((max 0 (pyInt x) : ℤ) : ℚ))
      = Except.ok ((max 0 (pyInt x) : ℤ) : ℚ)
    rw [integerInput_enforce_some, pyInt_intCast,
      max_eq_right (le_max_left 0 (pyInt x))]
  · rw [boundedNumberInput_enforce_some]
    show BoundedNumberInput.enforce (BoundedNumberInput.make label mB MB dB sB)
        (some (min (max mB x) MB))
      = Except.ok (min (max mB x) MB)
    rw [boundedNumberInput_enforce_some, clamp_idem]
  · rw [oddIntegerInput_enforce_some]
    show OddIntegerInput.enforce (OddIntegerInput.make label dO mO)
        (some ((max mO (pyInt x - pyInt x % 2) : ℤ) : ℚ))
      = Except.ok ((max mO (pyInt x - pyInt x % 2) : ℤ) : ℚ)
    rw [oddIntegerInput_enforce_some, pyInt_intCast, odd_core_idem]
  · rw [boundedIntegerInput_enforce_some]
    show BoundedIntegerInput.enforce
        (BoundedIntegerInput.make label mI MI dI optI)
        (some ((min (max mI (pyInt x)) MI : ℤ) : ℚ))
      = Except.ok ((min (max mI (pyInt x)) MI : ℤ) : ℚ)
    rw [boundedIntegerInput_enforce_some, pyInt_intCast, clamp_idem]
  · rw [boundlessIntegerInput_enforce_some]
    show BoundlessIntegerInput.enforce (BoundlessIntegerInput.make label)
        (some ((pyInt x : ℤ) : ℚ))
      = Except.ok ((pyInt x : ℤ) : ℚ)
    rw [boundlessIntegerInput_enforce_some, pyInt_intCast]
  · rw [sliderInput_enforce_some]
    show SliderInput.enforce (SliderInput.make label mS MS dS optS)
        (some ((min (max mS (pyInt x)) MS : ℤ) : ℚ))
      = Except.ok ((min (max mS (pyInt x)) MS : ℤ) : ℚ)
    rw [sliderInput_enforce_some, pyInt_intCast, clamp_idem]

/-- C8: for the same bounds (and label, default, optional flag),
`SliderInput.enforce` and `BoundedIntegerInput.enforce` return identical
results for every supplied value, and the two serialized records agree on
every key except `type`, which is `number::slider` versus `number::any`. -/
theorem c8_slider_matches_boundedInteger (label : String) (mn mx df : ℤ)
    (opt : Bool) (v : ℚ) :
    SliderInput.enforce (SliderInput.make label mn mx df opt) (some v)
        = BoundedIntegerInput.enforce
            (BoundedIntegerInput.make label mn mx df opt) (some v) ∧
    List.filter (fun p => !(p.1 == "type"))
        (NumberInput.toDict (SliderInput.make label mn mx df opt))
      = List.filter (fun p => !(p.1 == "type"))
        (NumberInput.toDict (BoundedIntegerInput.make label mn mx df opt)) ∧
    List.lookup "type"
        (NumberInput.toDict (SliderInput.make label mn mx df opt))
      = some (JsonVal.str "number::slider") ∧
    List.lookup "type"
        (NumberInput.toDict (BoundedIntegerInput.make label mn mx df opt))
      = some (JsonVal.str "number::any") :=
  ⟨rfl, rfl, rfl, rfl⟩

/-- C9: every numeric variant serializes to a record with exactly the keys
`type, label, min, max, def, step, hasHandle, optional` (in that order), with
`hasHandle` always `true` and `type` of the form `number::<subtype>`; every
dropdown record has exactly the keys `type, label, options, optional` with
`type` of the form `dropdown::<subtype>`. -/
theorem c9_serialized_record_keys (label nt : String) (df : ℚ)
    (mn mx st : Option ℚ) (opt : Bool) (mB MB dB sB : ℚ) (dO mO : ℤ)
    (mI MI dI : ℤ) (optI : Bool) (mS MS dS : ℤ) (optS : Bool)
    (itype dlabel : String) (opts : List JsonVal) (dopt : Bool) :
    (NumberInput.toDict (NumberInput.make label df mn mx st opt nt)).map
        Prod.fst
      = ["type", "label", "min", "max", "def", "step", "hasHandle",
         "optional"] ∧
    List.lookup "hasHandle"
        (NumberInput.toDict (NumberInput.make label df mn mx st opt nt))
      = some (JsonVal.bool true) ∧
    List.lookup "type"
        (NumberInput.toDict (NumberInput.make label df mn mx st opt nt))
      = some (JsonVal.str ("number::" ++ nt)) ∧
    (NumberInput.toDict (IntegerInput.make label)).map Prod.fst
      = ["type", "label", "min", "max", "def", "step", "hasHandle",
         "optional"] ∧
    (NumberInput.toDict (BoundedNumberInput.make label mB MB dB sB)).map
        Prod.fst
      = ["type", "label", "min", "max", "def", "step", "hasHandle",
         "optional"] ∧
    (NumberInput.toDict (OddIntegerInput.make label dO mO)).map Prod.fst
      = ["type", "label", "min", "max", "def", "step", "hasHandle",
         "optional"] ∧
    (NumberInput.toDict (BoundedIntegerInput.make label mI MI dI optI)).map
        Prod.fst
      = ["type", "label", "min", "max", "def", "step", "hasHandle",
         "optional"] ∧
    (NumberInput.toDict (BoundlessIntegerInput.make label)).map Prod.fst
      = ["type", "label", "min", "max", "def", "step", "hasHandle",
         "optional"] ∧
    (NumberInput.toDict (SliderInput.make label mS MS dS optS)).map Prod.fst
      = ["type", "label", "min", "max", "def", "step", "hasHandle",
         "optional"] ∧
    List.lookup "type" (NumberInput.toDict (SliderInput.make label mS MS dS
        optS))
      = some (JsonVal.str ("number::slider")) ∧
    (DropDownInput itype dlabel opts dopt).map Prod.fst
      = ["type", "label", "options", "optional"] ∧
    List.lookup "type" (DropDownInput itype dlabel opts dopt)
      = some (JsonVal.str ("dropdown::" ++ itype)) ∧
    MathOpsDropdown.map Prod.fst
      = ["type", "label", "options", "optional"] ∧
    StackOrientationDropdown.map Prod.fst
      = ["type", "label", "options", "optional"] ∧
    AlphaFillMethodInput.map Prod.fst
      = ["type", "label", "options", "optional"] ∧
    VideoTypeDropdown.map Prod.fst
      = ["type", "label", "options", "optional"] :=
  ⟨rfl, rfl, rfl, rfl, rfl, rfl, rfl, rfl, rfl, rfl, rfl, rfl, rfl, rfl,
   rfl, rfl⟩

/-- C10 (implicit): every numeric variant's `enforce` is monotone
non-decreasing in the supplied value: if `x ≤ y` then both calls succeed and
the result for `x` is at most the result for `y`. -/
theorem c10_enforce_monotone (label nt : String) (df mN : ℚ)
    (mx st : Option ℚ) (opt : Bool) (mB MB dB sB : ℚ) (dO mO : ℤ)
    (mI MI dI : ℤ) (optI : Bool) (mS MS dS : ℤ) (optS : Bool) (x y : ℚ)
    (hxy : x ≤ y) :
    exceptLE (NumberInput.enforce
        (NumberInput.make label df (some mN) mx st opt nt) (some x))
      (NumberInput.enforce
        (NumberInput.make label df (some mN) mx st opt nt) (some y)) ∧
    exceptLE (IntegerInput.enforce (IntegerInput.make label) (some x))
      (IntegerInput.enforce (IntegerInput.make label) (some y)) ∧
    exceptLE (BoundedNumberInput.enforce
        (BoundedNumberInput.make label mB MB dB sB) (some x))
      (BoundedNumberInput.enforce
        (BoundedNumberInput.make label mB MB dB sB) (some y)) ∧
    exceptLE (OddIntegerInput.enforce (OddIntegerInput.make label dO mO)
        (some x))
      (OddIntegerInput.enforce (OddIntegerInput.make label dO mO) (some y)) ∧
    exceptLE (BoundedIntegerInput.enforce
        (BoundedIntegerInput.make label mI MI dI optI) (some x))
      (BoundedIntegerInput.enforce
        (BoundedIntegerInput.make label mI MI dI optI) (some y)) ∧
    exceptLE (BoundlessIntegerInput.enforce (BoundlessIntegerInput.make label)
        (some x))
      (BoundlessIntegerInput.enforce (BoundlessIntegerInput.make label)
        (some y)) ∧
    exceptLE (SliderInput.enforce (SliderInput.make label mS MS dS optS)
        (some x))
      (SliderInput.enforce (SliderInput.make label mS MS dS optS) (some y))
    := by
  refine ⟨?_, ?_, ?_, ?_, ?_, ?_, ?_⟩
  · rw [numberInput_enforce_some, numberInput_enforce_some]
    show max mN x ≤ max mN y
    exact max_le_max le_rfl hxy
  · rw [integerInput_enforce_some, integerInput_enforce_some]
    show ((max 0 (pyInt x) : ℤ) : ℚ) ≤ ((max 0 (pyInt y) : ℤ) : ℚ)
    exact_mod_cast max_le_max le_rfl (pyInt_mono hxy)
  · rw [boundedNumberInput_enforce_some, boundedNumberInput_enforce_some]
    show min (max mB x) MB ≤ min (max mB y) MB
    exact min_le_min (max_le_max le_rfl hxy) le_rfl
  · rw [oddIntegerInput_enforce_some, oddIntegerInput_enforce_some]
    show ((max mO (pyInt x - pyInt x % 2) : ℤ) : ℚ)
      ≤ ((max mO (pyInt y - pyInt y % 2) : ℤ) : ℚ)
    exact_mod_cast max_le_max le_rfl (evenFloor_mono (pyInt_mono hxy))
  · rw [boundedIntegerInput_enforce_some, boundedIntegerInput_enforce_some]
    show ((min (max mI (pyInt x)) MI : ℤ) : ℚ)
      ≤ ((min (max mI (pyInt y)) MI : ℤ) : ℚ)
    exact_mod_cast min_le_min (max_le_max le_rfl (pyInt_mono hxy)) le_rfl
  · rw [boundlessIntegerInput_enforce_some, boundlessIntegerInput_enforce_some]
    show ((pyInt x : ℤ) : ℚ) ≤ ((pyInt y : ℤ) : ℚ)
    exact_mod_cast pyInt_mono hxy
  · rw [sliderInput_enforce_some, sliderInput_enforce_some]
    show ((min (max mS (pyInt x)) MS : ℤ) : ℚ)
      ≤ ((min (max mS (pyInt y)) MS : ℤ) : ℚ)
    exact_mod_cast min_le_min (max_le_max le_rfl (pyInt_mono hxy)) le_rfl

/-- C10 witness: monotonicity of the base `NumberInput` variant at the
concrete pair `3/2 ≤ 4` with `minimum = 0`. -/
theorem c10_enforce_monotone_witness :
    exceptLE (NumberInput.enforce
        (NumberInput.make "n" 0 (some 0) none (some 1) false "any")
        (some (3/2)))
      (NumberInput.enforce
        (NumberInput.make "n" 0 (some 0) none (some 1) false "any")
        (some 4)) :=
  (c10_enforce_monotone "n" "any" 0 0 none (some 1) false 0 1 (1/2) (1/4)
    1 1 0 100 50 false 0 255 128 false (3/2) 4 (by norm_num)).1
